import Mathlib

/-!
Verification of the tool-augmented prompt loop demo (src/app.py).

The source defines three pure tool functions (calculator, get_current_time,
reverse_string) and a main driver.  The calculator delegates to the host
language's general-purpose expression evaluator; here that evaluator is
embedded shallowly for the fragment relevant to the specification:
arithmetic over integer and decimal literals with + - * / ( ), unary signs,
string literals, identifier references and len calls.  Host floats are
modelled as exact fractions; this is faithful exactly when every value
that arises is representable without rounding, which holds for every
concrete input any theorem below evaluates.
-/

/- Basic string building blocks.  The single-quote character is built from
its code point so that the development never spells it literally. -/

def singleQuoteChar : Char := Char.ofNat 39

def doubleQuoteChar : Char := Char.ofNat 34

def quoteS : String := String.mk [singleQuoteChar]

def dotChar : Char := Char.ofNat 46

def spaceS : String := String.mk [Char.ofNat 32]

/- Values produced by the embedded evaluator: host integers are unbounded,
host floats are modelled as exact fractions (numerator over nonzero
denominator, not necessarily reduced), and strings are host strings. -/

structure PyFloat where
  fnum : Int
  fden : Int
deriving DecidableEq

def pyFloatVal (f : PyFloat) : Rat := (f.fnum : Rat) / (f.fden : Rat)

inductive PyVal where
  | intV (n : Int)
  | floatV (f : PyFloat)
  | strV (s : String)
deriving DecidableEq

/- Error message payloads, mirroring the host exception texts that
str(e) produces in the source's except branch. -/

def divZeroMsg : String := r"division by zero"

def floatDivZeroMsg : String := r"float division by zero"

def typeErrMsg : String := r"unsupported operand type(s)"

def lenErrMsg : String := r"object has no len()"

def nameErrMsg (nm : String) : String := r"name " ++ quoteS ++ nm ++ quoteS ++ r" is not defined"

def invalidSyntaxMsg : String := r"invalid syntax (<string>, line 1)"

def leadingZeroMsg : String := r"leading zeros in decimal integer literals are not permitted"

def badCharMsg : String := r"invalid character"

def unterminatedMsg : String := r"unterminated string literal"

def internalFuelMsg : String := r"internal: fuel exhausted"

/- Tokens of the embedded expression language. -/

inductive Tok where
  | intTok (n : Nat)
  | floatTok (f : PyFloat)
  | strTok (s : String)
  | nameTok (s : String)
  | plusTok
  | minusTok
  | starTok
  | slashTok
  | lparenTok
  | rparenTok
deriving DecidableEq

def charVal (c : Char) : Nat := c.toNat - 48

def natOfDigits (ds : List Char) : Nat := ds.foldl (fun a c => 10 * a + charVal c) 0

def isIdentStart (c : Char) : Bool := c.isAlpha || c = Char.ofNat 95

def isIdentChar (c : Char) : Bool := c.isAlpha || c = Char.ofNat 95 || c.isDigit

/- Decimal integer literals may not carry leading zeros unless every digit
is zero, matching the host tokenizer. -/

def intLitOk (ds : List Char) : Bool :=
  match ds.head? with
  | some c => if c = Char.ofNat 48 then ds.all (fun d => d = Char.ofNat 48) else true
  | none => false

def pfOfParts (ip : Nat) (fds : List Char) : PyFloat :=
  ⟨(ip * 10 ^ fds.length + natOfDigits fds : Nat), ((10 : Nat) ^ fds.length : Nat)⟩

def consTok (t : Tok) : Except String (List Tok) → Except String (List Tok)
  | .ok ts => .ok (t :: ts)
  | .error e => .error e

/- Tokenizer for the embedded fragment.  Fuel decreases once per emitted
token or skipped space while at least one character is consumed, so an
initial fuel of one more than the character count always suffices. -/

def tokenizeAux : Nat → List Char → Except String (List Tok)
  | _, [] => .ok []
  | 0, _ :: _ => .error internalFuelMsg
  | fuel + 1, c :: cs =>
    if c = Char.ofNat 32 || c = Char.ofNat 9 then tokenizeAux fuel cs
    else if c.isDigit then
      let ds := (c :: cs).takeWhile (fun d => d.isDigit)
      let rest := (c :: cs).dropWhile (fun d => d.isDigit)
      if rest.head? = some dotChar then
        let fds := rest.tail.takeWhile (fun d => d.isDigit)
        let rest2 := rest.tail.dropWhile (fun d => d.isDigit)
        consTok (.floatTok (pfOfParts (natOfDigits ds) fds)) (tokenizeAux fuel rest2)
      else if intLitOk ds then
        consTok (.intTok (natOfDigits ds)) (tokenizeAux fuel rest)
      else .error leadingZeroMsg
    else if c = dotChar then
      let fds := cs.takeWhile (fun d => d.isDigit)
      let rest := cs.dropWhile (fun d => d.isDigit)
      if fds.isEmpty then .error invalidSyntaxMsg
      else consTok (.floatTok (pfOfParts 0 fds)) (tokenizeAux fuel rest)
    else if isIdentStart c then
      let ids := (c :: cs).takeWhile isIdentChar
      let rest := (c :: cs).dropWhile isIdentChar
      consTok (.nameTok (String.mk ids)) (tokenizeAux fuel rest)
    else if c = singleQuoteChar || c = doubleQuoteChar then
      let sds := cs.takeWhile (fun d => d != c)
      let rest := cs.dropWhile (fun d => d != c)
      match rest with
      | [] => .error unterminatedMsg
      | _ :: rest2 => consTok (.strTok (String.mk sds)) (tokenizeAux fuel rest2)
    else if c = Char.ofNat 43 then consTok .plusTok (tokenizeAux fuel cs)
    else if c = Char.ofNat 45 then consTok .minusTok (tokenizeAux fuel cs)
    else if c = Char.ofNat 42 then consTok .starTok (tokenizeAux fuel cs)
    else if c = Char.ofNat 47 then consTok .slashTok (tokenizeAux fuel cs)
    else if c = Char.ofNat 40 then consTok .lparenTok (tokenizeAux fuel cs)
    else if c = Char.ofNat 41 then consTok .rparenTok (tokenizeAux fuel cs)
    else .error badCharMsg

def tokenize (s : String) : Except String (List Tok) :=
  tokenizeAux (s.data.length + 1) s.data

/- Abstract syntax of the embedded fragment. -/

inductive PyExpr where
  | intLit (n : Nat)
  | floatLit (f : PyFloat)
  | strLit (s : String)
  | nameRef (s : String)
  | callE (fn : String) (arg : PyExpr)
  | negE (e : PyExpr)
  | posE (e : PyExpr)
  | addE (a b : PyExpr)
  | subE (a b : PyExpr)
  | mulE (a b : PyExpr)
  | divE (a b : PyExpr)
deriving DecidableEq

/- Parser modes: one fuel-indexed function covers the precedence levels
(sum, product, unary, atom) plus the two left-associative chains. -/

inductive PMode where
  | exprM
  | termM
  | factorM
  | atomM
  | addChainM (acc : PyExpr)
  | mulChainM (acc : PyExpr)

def parseP : Nat → PMode → List Tok → Except String (PyExpr × List Tok)
  | 0, _, _ => .error internalFuelMsg
  | fuel + 1, m, ts =>
    match m with
    | .exprM =>
      match parseP fuel .termM ts with
      | .ok (e, ts1) => parseP fuel (.addChainM e) ts1
      | .error er => .error er
    | .addChainM acc =>
      match ts with
      | .plusTok :: r =>
        match parseP fuel .termM r with
        | .ok (e, ts1) => parseP fuel (.addChainM (.addE acc e)) ts1
        | .error er => .error er
      | .minusTok :: r =>
        match parseP fuel .termM r with
        | .ok (e, ts1) => parseP fuel (.addChainM (.subE acc e)) ts1
        | .error er => .error er
      | _ => .ok (acc, ts)
    | .termM =>
      match parseP fuel .factorM ts with
      | .ok (e, ts1) => parseP fuel (.mulChainM e) ts1
      | .error er => .error er
    | .mulChainM acc =>
      match ts with
      | .starTok :: r =>
        match parseP fuel .factorM r with
        | .ok (e, ts1) => parseP fuel (.mulChainM (.mulE acc e)) ts1
        | .error er => .error er
      | .slashTok :: r =>
        match parseP fuel .factorM r with
        | .ok (e, ts1) => parseP fuel (.mulChainM (.divE acc e)) ts1
        | .error er => .error er
      | _ => .ok (acc, ts)
    | .factorM =>
      match ts with
      | .minusTok :: r =>
        match parseP fuel .factorM r with
        | .ok (e, ts1) => .ok (.negE e, ts1)
        | .error er => .error er
      | .plusTok :: r =>
        match parseP fuel .factorM r with
        | .ok (e, ts1) => .ok (.posE e, ts1)
        | .error er => .error er
      | _ => parseP fuel .atomM ts
    | .atomM =>
      match ts with
      | .intTok n :: r => .ok (.intLit n, r)
      | .floatTok q :: r => .ok (.floatLit q, r)
      | .strTok s :: r => .ok (.strLit s, r)
      | .nameTok nm :: .lparenTok :: r =>
        match parseP fuel .exprM r with
        | .ok (e, .rparenTok :: r2) => .ok (.callE nm e, r2)
        | .ok _ => .error invalidSyntaxMsg
        | .error er => .error er
      | .nameTok nm :: r => .ok (.nameRef nm, r)
      | .lparenTok :: r =>
        match parseP fuel .exprM r with
        | .ok (e, .rparenTok :: r2) => .ok (e, r2)
        | .ok _ => .error invalidSyntaxMsg
        | .error er => .error er
      | _ => .error invalidSyntaxMsg

def parseTop (s : String) : Except String PyExpr :=
  match tokenize s with
  | .error er => .error er
  | .ok ts =>
    match parseP (5 * ts.length + 10) .exprM ts with
    | .ok (e, []) => .ok e
    | .ok _ => .error invalidSyntaxMsg
    | .error er => .error er

/- Evaluation, mirroring the host operator semantics on this fragment:
true division always yields a float, string concatenation and repetition
are supported, everything else is a type error. -/

def lenName : String := r"len"

def intToPf (n : Int) : PyFloat := ⟨n, 1⟩

def pfNeg (a : PyFloat) : PyFloat := ⟨-a.fnum, a.fden⟩

def pfAdd (a b : PyFloat) : PyFloat := ⟨a.fnum * b.fden + b.fnum * a.fden, a.fden * b.fden⟩

def pfSub (a b : PyFloat) : PyFloat := ⟨a.fnum * b.fden - b.fnum * a.fden, a.fden * b.fden⟩

def pfMul (a b : PyFloat) : PyFloat := ⟨a.fnum * b.fnum, a.fden * b.fden⟩

def pfDiv (a b : PyFloat) : PyFloat := ⟨a.fnum * b.fden, a.fden * b.fnum⟩

def pfIsZero (a : PyFloat) : Bool := a.fnum == 0

def pyNeg : PyVal → Except String PyVal
  | .intV n => .ok (.intV (-n))
  | .floatV f => .ok (.floatV (pfNeg f))
  | .strV _ => .error typeErrMsg

def pyPos : PyVal → Except String PyVal
  | .intV n => .ok (.intV n)
  | .floatV f => .ok (.floatV f)
  | .strV _ => .error typeErrMsg

def pyAdd : PyVal → PyVal → Except String PyVal
  | .intV a, .intV b => .ok (.intV (a + b))
  | .intV a, .floatV b => .ok (.floatV (pfAdd (intToPf a) b))
  | .floatV a, .intV b => .ok (.floatV (pfAdd a (intToPf b)))
  | .floatV a, .floatV b => .ok (.floatV (pfAdd a b))
  | .strV a, .strV b => .ok (.strV (a ++ b))
  | _, _ => .error typeErrMsg

def pySub : PyVal → PyVal → Except String PyVal
  | .intV a, .intV b => .ok (.intV (a - b))
  | .intV a, .floatV b => .ok (.floatV (pfSub (intToPf a) b))
  | .floatV a, .intV b => .ok (.floatV (pfSub a (intToPf b)))
  | .floatV a, .floatV b => .ok (.floatV (pfSub a b))
  | _, _ => .error typeErrMsg

def strRepeat (s : String) (n : Int) : String :=
  String.join (List.replicate n.toNat s)

def pyMul : PyVal → PyVal → Except String PyVal
  | .intV a, .intV b => .ok (.intV (a * b))
  | .intV a, .floatV b => .ok (.floatV (pfMul (intToPf a) b))
  | .floatV a, .intV b => .ok (.floatV (pfMul a (intToPf b)))
  | .floatV a, .floatV b => .ok (.floatV (pfMul a b))
  | .strV a, .intV b => .ok (.strV (strRepeat a b))
  | .intV a, .strV b => .ok (.strV (strRepeat b a))
  | _, _ => .error typeErrMsg

def pyDiv : PyVal → PyVal → Except String PyVal
  | .intV a, .intV b =>
    if b = 0 then .error divZeroMsg
    else .ok (.floatV (pfDiv (intToPf a) (intToPf b)))
  | .intV a, .floatV b =>
    if pfIsZero b then .error floatDivZeroMsg else .ok (.floatV (pfDiv (intToPf a) b))
  | .floatV a, .intV b =>
    if b = 0 then .error floatDivZeroMsg else .ok (.floatV (pfDiv a (intToPf b)))
  | .floatV a, .floatV b =>
    if pfIsZero b then .error floatDivZeroMsg else .ok (.floatV (pfDiv a b))
  | _, _ => .error typeErrMsg

def pyLen : PyVal → Except String PyVal
  | .strV s => .ok (.intV (s.length : Int))
  | _ => .error lenErrMsg

def pyEvalExpr : PyExpr → Except String PyVal
  | .intLit n => .ok (.intV (n : Int))
  | .floatLit q => .ok (.floatV q)
  | .strLit s => .ok (.strV s)
  | .nameRef nm => .error (nameErrMsg nm)
  | .callE fn a =>
    if fn = lenName then
      match pyEvalExpr a with
      | .ok v => pyLen v
      | .error er => .error er
    else .error (nameErrMsg fn)
  | .negE e =>
    match pyEvalExpr e with
    | .ok v => pyNeg v
    | .error er => .error er
  | .posE e =>
    match pyEvalExpr e with
    | .ok v => pyPos v
    | .error er => .error er
  | .addE a b =>
    match pyEvalExpr a with
    | .ok va =>
      match pyEvalExpr b with
      | .ok vb => pyAdd va vb
      | .error er => .error er
    | .error er => .error er
  | .subE a b =>
    match pyEvalExpr a with
    | .ok va =>
      match pyEvalExpr b with
      | .ok vb => pySub va vb
      | .error er => .error er
    | .error er => .error er
  | .mulE a b =>
    match pyEvalExpr a with
    | .ok va =>
      match pyEvalExpr b with
      | .ok vb => pyMul va vb
      | .error er => .error er
    | .error er => .error er
  | .divE a b =>
    match pyEvalExpr a with
    | .ok va =>
      match pyEvalExpr b with
      | .ok vb => pyDiv va vb
      | .error er => .error er
    | .error er => .error er

/- Rendering a value as the host str conversion does.  Floats whose exact
value has a finite decimal expansion are printed with a mandatory decimal
point, which is the shortest round-trip form the host prints for them. -/

def zeroPadLeft (s : String) (k : Nat) : String :=
  String.mk (List.replicate (k - s.length) (Char.ofNat 48)) ++ s

def floatRepr (f : PyFloat) : String :=
  let neg := (f.fnum < 0 && 0 < f.fden) || (0 < f.fnum && f.fden < 0)
  let sgn := if neg then String.mk [Char.ofNat 45] else r""
  let a := f.fnum.natAbs
  let b := f.fden.natAbs
  match (List.range 40).find? (fun k => a * 10 ^ k % b = 0) with
  | some k =>
    let scaled : Nat := a * (10 ^ k) / b
    let ip := scaled / 10 ^ k
    let fp := scaled % 10 ^ k
    if k = 0 then sgn ++ toString ip ++ r".0"
    else sgn ++ toString ip ++ String.mk [dotChar] ++ zeroPadLeft (toString fp) k
  | none => sgn ++ r"inf"

def pyStr : PyVal → String
  | .intV n => toString n
  | .floatV f => floatRepr f
  | .strV s => s

/- The calculator tool from src/app.py lines 12 to 26: evaluate the
expression and render it with str, catching every failure and returning
the error text instead. -/

def pyRun (s : String) : Except String PyVal :=
  match parseTop s with
  | .ok e => pyEvalExpr e
  | .error er => .error er

def errorHeader : String := r"Error evaluating expression:"

def calculator (expression : String) : String :=
  match pyRun expression with
  | .ok v => pyStr v
  | .error m => errorHeader ++ (spaceS ++ m)

/- The string reversal tool from src/app.py lines 40 to 50: the slice with
step minus one reverses the character sequence. -/

def reverse_string (input_string : String) : String :=
  String.mk input_string.data.reverse

/- The current-time tool from src/app.py lines 28 to 38.  The ambient
clock instant is passed explicitly; the tool formats it with strftime
and ignores its string input, which exists only for the tool signature. -/

structure PyDateTime where
  year : Nat
  month : Nat
  day : Nat
  hour : Nat
  minute : Nat
  second : Nat

def validDateTime (t : PyDateTime) : Prop :=
  1 ≤ t.year ∧ t.year ≤ 9999 ∧ 1 ≤ t.month ∧ t.month ≤ 12 ∧ 1 ≤ t.day ∧ t.day ≤ 31 ∧
    t.hour ≤ 23 ∧ t.minute ≤ 59 ∧ t.second ≤ 59

def digitCh (n : Nat) : Char := Char.ofNat (48 + n % 10)

def pad2 (n : Nat) : String := String.mk [digitCh (n / 10), digitCh n]

def pad4 (n : Nat) : String :=
  String.mk [digitCh (n / 1000), digitCh (n / 100), digitCh (n / 10), digitCh n]

def dashS : String := String.mk [Char.ofNat 45]

def colonS : String := String.mk [Char.ofNat 58]

def strftimeYmdHms (t : PyDateTime) : String :=
  pad4 t.year ++ dashS ++ pad2 t.month ++ dashS ++ pad2 t.day ++ spaceS ++
    pad2 t.hour ++ colonS ++ pad2 t.minute ++ colonS ++ pad2 t.second

def get_current_time (now : PyDateTime) (input_str : String) : String :=
  strftimeYmdHms now

/- Recognizer for the documented output shape YYYY-MM-DD HH:MM:SS. -/

def matchesTimestamp (s : String) : Bool :=
  match s.data with
  | [y1, y2, y3, y4, a1, m1, m2, a2, d1, d2, a3, h1, h2, a4, n1, n2, a5, s1, s2] =>
    y1.isDigit && y2.isDigit && y3.isDigit && y4.isDigit &&
    (a1 == Char.ofNat 45) && m1.isDigit && m2.isDigit &&
    (a2 == Char.ofNat 45) && d1.isDigit && d2.isDigit &&
    (a3 == Char.ofNat 32) && h1.isDigit && h2.isDigit &&
    (a4 == Char.ofNat 58) && n1.isDigit && n2.isDigit &&
    (a5 == Char.ofNat 58) && s1.isDigit && s2.isDigit
  | _ => false

/- Tools as registered in src/app.py lines 81 to 102: a name, a free-text
description, and a string-to-string callable. -/

structure Tool where
  name : String
  description : String
  invoke : String → String

abbrev ToolRegistry := List Tool

def calcToolDescription : String :=
  r"Use this tool when you need to evaluate mathematical expressions. " ++
    r"Provide the expression as a string (e.g., " ++ quoteS ++ r"25 * 4 + 10" ++ quoteS ++
    r"). This tool is perfect for arithmetic operations, solving equations, " ++
    r"and verifying mathematical calculations."

def timeToolDescription : String :=
  r"Use this tool to get the current date and time. " ++
    r"Returns the current time in YYYY-MM-DD HH:MM:SS format. " ++
    r"Use this when you need to know what time it is right now."

def revToolDescription : String :=
  r"Reverses a string. Input should be a single string."

def appTools (now : PyDateTime) : List Tool :=
  [⟨r"Calculator", calcToolDescription, calculator⟩,
   ⟨r"get_current_time", timeToolDescription, get_current_time now⟩,
   ⟨r"reverse_string", revToolDescription, reverse_string⟩]

/-- Modelled from the spec: the registry contract of section 4.1 is owned by
the external agent framework and has no body under src/, so register and
lookup are taken from the spec's words: register fails with
DuplicateNameError when a tool of the same name exists, lookup fails with
UnknownToolError when the name is absent and otherwise returns the Tool. -/
inductive RegistryError where
  | duplicateNameError (nm : String)
  | unknownToolError (nm : String)
deriving DecidableEq

def ToolRegistry.register (reg : ToolRegistry) (t : Tool) : Except RegistryError ToolRegistry :=
  if reg.any (fun u => u.name == t.name) then .error (.duplicateNameError t.name)
  else .ok (reg ++ [t])

def ToolRegistry.lookup (reg : ToolRegistry) (nm : String) : Except RegistryError Tool :=
  match reg.find? (fun u => u.name == nm) with
  | some t => .ok t
  | none => .error (.unknownToolError nm)

/-- Modelled from the spec: the decision loop of section 4.4 is executed by
the external AgentExecutor constructed in src/app.py lines 105 to 108, so
its state machine is taken from the spec's words: Start, Routing,
Invoking, Responding, Done, with a router decision per round, local
recovery on unknown tool names, and an explicit maximum-iteration bound
with a best-effort fallback answer once the bound is exhausted. -/
inductive Decision where
  | answer (text : String)
  | invokeTool (toolName : String) (arg : String)

def decisionIsInvoke : Decision → Bool
  | .answer _ => false
  | .invokeTool _ _ => true

inductive LoopState where
  | startSt (remaining : Nat)
  | routingSt (remaining : Nat) (trace : List (Decision × String))
  | invokingSt (remaining : Nat) (toolName : String) (arg : String) (trace : List (Decision × String))
  | respondingSt (text : String) (trace : List (Decision × String))
  | doneSt (output : String) (trace : List (Decision × String))

def unknownToolAnswer (nm : String) : String := r"Tool not found: " ++ nm

def boundExceededAnswer : String :=
  r"Maximum iterations reached: returning best-effort answer"

def loopStep (router : List (Decision × String) → Decision) (reg : ToolRegistry) :
    LoopState → LoopState
  | .startSt n => .routingSt n []
  | .routingSt n tr =>
    match router tr with
    | .answer t => .respondingSt t (tr ++ [(.answer t, t)])
    | .invokeTool nm arg =>
      match n with
      | 0 => .respondingSt boundExceededAnswer tr
      | m + 1 => .invokingSt m nm arg tr
  | .invokingSt m nm arg tr =>
    match ToolRegistry.lookup reg nm with
    | .error _ => .respondingSt (unknownToolAnswer nm) (tr ++ [(.invokeTool nm arg, unknownToolAnswer nm)])
    | .ok t => .routingSt m (tr ++ [(.invokeTool nm arg, t.invoke arg)])
  | .respondingSt t tr => .doneSt t tr
  | .doneSt t tr => .doneSt t tr

def countInvocations (tr : List (Decision × String)) : Nat :=
  tr.countP (fun p => decisionIsInvoke p.1)

def runDecisionLoop (router2 : String → List (Decision × String) → Decision)
    (reg : ToolRegistry) (query : String) (bound : Nat) : LoopState :=
  (loopStep (router2 query) reg)^[2 * bound + 4] (.startSt bound)

/- The main driver from src/app.py lines 52 to 131, with the external
agent executor abstracted as a function from a query to either an output
or a raised error.  The trace records the decisive console lines, whether
the inference client was constructed, and how many agent invocations
(each one a network interaction) were issued. -/

def nlS : String := String.mk [Char.ofNat 10]

def welcomeLine : String := r"🚀 Welcome to the app!"

def tokenMissingLine : String := r"❌ Error: GITHUB_TOKEN not found!"

def fixHeaderLine : String := nlS ++ r"📋 To fix this:"

def fixLine1 : String := r"   1. Create a .env file in the project root"

def fixLine2 : String := r"   2. Add your GitHub token: GITHUB_TOKEN=your_token_here"

def fixLine3 : String := r"   3. Get a token from: https://github.com/settings/tokens"

def clientInitLine : String := r"✅ ChatOpenAI client initialized!"

def tokenFoundLine : String := r"✅ GITHUB_TOKEN found!"

def toolsConfiguredLine : String := r"✅ Tools configured!"

def agentCreatedLine : String := r"✅ Agent created!"

def okLineHeader : String := r"✅ Agent Result: "

def agentErrLineHeader : String := r"❌ Error executing agent: "

def appQuery1 : String := r"What time is it right now?"

def appQuery2 : String := r"What is 25 * 4 + 10?"

def appQuery3 : String := r"Reverse the string " ++ quoteS ++ r"Hello World" ++ quoteS

def appQueries : List String := [appQuery1, appQuery2, appQuery3]

/- One iteration of the query loop of src/app.py lines 122 to 131: invoke
the agent under a try block and turn success or any raised error into the
corresponding console line for that query alone. -/

def queryLine (agent : String → Except String String) (q : String) : String :=
  match agent q with
  | .ok r2 => okLineHeader ++ r2
  | .error e => agentErrLineHeader ++ e

def runBatch (agent : String → Except String String) (qs : List String) : List String :=
  qs.map (queryLine agent)

/- Python truthiness of the token read from the environment: both an unset
variable and an empty string fail the `if not github_token` test. -/

def tokenMissing : Option String → Bool
  | none => true
  | some t => t == r""

structure MainTrace where
  lines : List String
  clientConstructed : Bool
  networkCalls : Nat
  earlyReturn : Bool

def mainRun (githubToken : Option String) (agent : String → Except String String) : MainTrace :=
  if tokenMissing githubToken then
    ⟨[welcomeLine, tokenMissingLine, fixHeaderLine, fixLine1, fixLine2, fixLine3],
      false, 0, true⟩
  else
    ⟨[welcomeLine, clientInitLine, tokenFoundLine, toolsConfiguredLine, agentCreatedLine] ++
        runBatch agent appQueries,
      true, appQueries.length, false⟩

/- Specification-side definitions used to state the claims, written from
the spec's words rather than from the source. -/

/- Arithmetic-only expressions: integer literals, unary signs, addition,
subtraction and multiplication.  Division is deliberately excluded: on
this fragment host evaluation stays in unbounded integers. -/

def arithOnly : PyExpr → Bool
  | .intLit _ => true
  | .negE e => arithOnly e
  | .posE e => arithOnly e
  | .addE a b => arithOnly a && arithOnly b
  | .subE a b => arithOnly a && arithOnly b
  | .mulE a b => arithOnly a && arithOnly b
  | _ => false

/- The standard mathematical integer value of an arithmetic-only
expression. -/

def intEval : PyExpr → Int
  | .intLit n => (n : Int)
  | .negE e => -intEval e
  | .posE e => intEval e
  | .addE a b => intEval a + intEval b
  | .subE a b => intEval a - intEval b
  | .mulE a b => intEval a * intEval b
  | _ => 0

/-- Modelled from the spec: the standard arithmetic evaluation of an
expression, with division read as exact division of rationals, as the
words of the claim demand; undefined outside the arithmetic operators and
on division by zero. -/
def ratEval : PyExpr → Option Rat
  | .intLit n => some ((n : Nat) : Rat)
  | .floatLit f => some (pyFloatVal f)
  | .negE e => (ratEval e).map (fun q => -q)
  | .posE e => ratEval e
  | .addE a b =>
    match ratEval a, ratEval b with
    | some x, some y => some (x + y)
    | _, _ => none
  | .subE a b =>
    match ratEval a, ratEval b with
    | some x, some y => some (x - y)
    | _, _ => none
  | .mulE a b =>
    match ratEval a, ratEval b with
    | some x, some y => some (x * y)
    | _, _ => none
  | .divE a b =>
    match ratEval a, ratEval b with
    | some x, some y => if y = 0 then none else some (x / y)
    | _, _ => none
  | _ => none

/-- Modelled from the spec: the canonical decimal string of a rational,
when it has a finite decimal expansion; an integer is written with no
decimal point, which is what distinguishes the spec's reading from the
host float rendering. -/
def specDecimal (q : Rat) : Option String :=
  if q.den = 1 then some (toString q.num)
  else
    match (List.range 40).find? (fun k => (10 : Nat) ^ k % q.den = 0) with
    | some k =>
      let sgn := if q < 0 then dashS else r""
      let a := if q < 0 then -q else q
      let scaled : Nat := a.num.toNat * (10 ^ k) / a.den
      some (sgn ++ toString (scaled / 10 ^ k) ++ String.mk [dotChar] ++
        zeroPadLeft (toString (scaled % 10 ^ k)) k)
    | none => none

/- The character alphabet of arithmetic expressions over numeric literals
and the six operator and parenthesis symbols, with whitespace and the
decimal point admitted generously; a string that is an arithmetic
expression in the claims' sense draws every character from it. -/

def isArithChar (c : Char) : Bool :=
  c.isDigit || c = Char.ofNat 43 || c = Char.ofNat 45 || c = Char.ofNat 42 ||
    c = Char.ofNat 47 || c = Char.ofNat 40 || c = Char.ofNat 41 ||
    c = Char.ofNat 32 || c = Char.ofNat 9 || c = dotChar

def lenAbcInput : String := r"len(" ++ quoteS ++ r"abc" ++ quoteS ++ r")"

/- Concrete instances used by the witness theorems. -/

def constAgent : String → Except String String := fun q => .ok q

def boomMsg : String := r"boom"

def failingAgent : String → Except String String := fun _ => .error boomMsg

def demoTool : Tool := ⟨r"Calculator", calcToolDescription, calculator⟩

def demoReg : ToolRegistry := [demoTool]

def demoMissingName : String := r"get_current_time"

def demoNow : PyDateTime := ⟨2026, 10, 12, 3, 4, 5⟩

/- Helper lemmas. -/

/-- Evaluation of a division-free arithmetic expression stays in the
integers and computes exactly the standard mathematical value. -/
theorem pyEvalExpr_arithOnly (e : PyExpr) (h : arithOnly e = true) :
    pyEvalExpr e = .ok (.intV (intEval e)) := by
  induction e with
  | intLit n => rfl
  | floatLit f => simp [arithOnly] at h
  | strLit s => simp [arithOnly] at h
  | nameRef s => simp [arithOnly] at h
  | callE fn a iha => simp [arithOnly] at h
  | negE e ih =>
    simp only [arithOnly] at h
    simp [pyEvalExpr, ih h, pyNeg, intEval]
  | posE e ih =>
    simp only [arithOnly] at h
    simp [pyEvalExpr, ih h, pyPos, intEval]
  | addE a b iha ihb =>
    simp only [arithOnly, Bool.and_eq_true] at h
    simp [pyEvalExpr, iha h.1, ihb h.2, pyAdd, intEval]
  | subE a b iha ihb =>
    simp only [arithOnly, Bool.and_eq_true] at h
    simp [pyEvalExpr, iha h.1, ihb h.2, pySub, intEval]
  | mulE a b iha ihb =>
    simp only [arithOnly, Bool.and_eq_true] at h
    simp [pyEvalExpr, iha h.1, ihb h.2, pyMul, intEval]
  | divE a b iha ihb => simp [arithOnly] at h

/-- Claim C1, amended: for every well-formed arithmetic expression over
integer literals, unary signs and the operators + - * ( ) but without
division, the calculator returns the decimal string representation of the
standard integer evaluation of that expression.  Expressions containing
division are evaluated in host floating point and rendered as float
strings, which is why the claim does not hold with division included. -/
theorem calculator_arith_correct :
    ∀ (s : String) (e : PyExpr), parseTop s = .ok e → arithOnly e = true →
      calculator s = toString (intEval e) := by
  intro s e hp ha
  simp [calculator, pyRun, hp, pyEvalExpr_arithOnly e ha, pyStr]

/-- Witness for claim C1: the spec's own end-to-end example expression. -/
theorem calculator_arith_correct_witness :
    calculator (r"25 * 4 + 10") =
      toString (intEval (PyExpr.addE (PyExpr.mulE (PyExpr.intLit 25) (PyExpr.intLit 4))
        (PyExpr.intLit 10))) :=
  calculator_arith_correct _ _ rfl rfl

/-- Counterexample for claim C1 as stated: the well-formed arithmetic
string 4/2 evaluates to the rational 2 whose decimal string representation
is 2, yet the calculator returns the float rendering 2.0, so the
calculator's output differs from the decimal string of the standard
arithmetic evaluation. -/
theorem calculator_div_counterexample :
    parseTop (r"4/2") = .ok (PyExpr.divE (PyExpr.intLit 4) (PyExpr.intLit 2)) ∧
    ratEval (PyExpr.divE (PyExpr.intLit 4) (PyExpr.intLit 2)) = some 2 ∧
    specDecimal 2 = some (r"2") ∧
    calculator (r"4/2") = r"2.0" ∧ (r"2.0" : String) ≠ r"2" := by
  refine ⟨rfl, by norm_num [ratEval], ?_, rfl, by decide⟩
  norm_num [specDecimal]
  rfl

/-- Claim C2: whenever evaluation of the input fails, the calculator
returns the failure converted into a string that begins with the error
header, and it returns a string on every input by construction; the
spec's two example failures are checked concretely. -/
theorem calculator_error_contract :
    (∀ s m : String, pyRun s = .error m → calculator s = errorHeader ++ (spaceS ++ m)) ∧
    calculator (r"2 +") = errorHeader ++ (spaceS ++ invalidSyntaxMsg) ∧
    calculator (r"1/0") = errorHeader ++ (spaceS ++ divZeroMsg) := by
  refine ⟨?_, rfl, rfl⟩
  intro s m h
  simp [calculator, h]

/-- Witness for claim C2 at a concrete failing input. -/
theorem calculator_error_contract_witness :
    calculator (r"0/0") = errorHeader ++ (spaceS ++ divZeroMsg) :=
  calculator_error_contract.1 _ _ rfl

/-- Claim C3: the calculator evaluates arbitrary host-language
expressions, not only arithmetic ones: the input len('abc') is not an
arithmetic expression over numeric literals and + - * / ( ), yet the
calculator returns the successful non-error result 3. -/
theorem calculator_evaluates_host_expressions :
    ∃ s : String, s.data.all isArithChar = false ∧ calculator s = r"3" ∧
      ∀ rest, calculator s ≠ errorHeader ++ rest := by
  refine ⟨lenAbcInput, by decide, by decide, ?_⟩
  intro rest h
  have hc : calculator lenAbcInput = r"3" := by decide
  rw [hc] at h
  have h2 := congrArg String.length h
  rw [String.length_append] at h2
  have e1 : (r"3" : String).length = 1 := rfl
  have e2 : errorHeader.length = 28 := rfl
  rw [e1, e2] at h2
  omega

/-- Claim C8: string reversal returns the character sequence in exactly
reverse order, is an involution, and sends Hello World to dlroW olleH;
it is pure and total by its very type. -/
theorem reverse_string_spec :
    (∀ s : String, (reverse_string s).data = s.data.reverse) ∧
    (∀ s : String, reverse_string (reverse_string s) = s) ∧
    reverse_string (r"Hello World") = r"dlroW olleH" := by
  refine ⟨fun s => rfl, fun s => ?_, by decide⟩
  show String.mk s.data.reverse.reverse = s
  rw [List.reverse_reverse]

/-- Claim C10: division of integer literals is evaluated in host floats
and rendered with a decimal point by the plain string conversion, so 4/2
yields 2.0 rather than 2, and 7/2 yields 3.5. -/
theorem calculator_int_division_renders_float :
    calculator (r"4/2") = r"2.0" ∧ calculator (r"7/2") = r"3.5" ∧
      calculator (r"4/2") ≠ r"2" :=
  ⟨rfl, rfl, by decide⟩

/-- Claim C5: when the credential is missing (unset or empty, both falsy),
main prints the remediation message and returns early and informationally,
with the inference client never constructed and no network call issued. -/
theorem missing_token_aborts_startup :
    ∀ (tok : Option String) (agent : String → Except String String),
      tokenMissing tok = true →
      (mainRun tok agent).clientConstructed = false ∧
      (mainRun tok agent).networkCalls = 0 ∧
      (mainRun tok agent).earlyReturn = true ∧
      tokenMissingLine ∈ (mainRun tok agent).lines ∧
      fixLine1 ∈ (mainRun tok agent).lines ∧
      fixLine2 ∈ (mainRun tok agent).lines ∧
      fixLine3 ∈ (mainRun tok agent).lines := by
  intro tok agent h
  simp [mainRun, h]

/-- Witness for claim C5 with the variable entirely unset. -/
theorem missing_token_aborts_startup_witness :
    (mainRun none constAgent).clientConstructed = false ∧
    (mainRun none constAgent).networkCalls = 0 ∧
    (mainRun none constAgent).earlyReturn = true ∧
    tokenMissingLine ∈ (mainRun none constAgent).lines ∧
    fixLine1 ∈ (mainRun none constAgent).lines ∧
    fixLine2 ∈ (mainRun none constAgent).lines ∧
    fixLine3 ∈ (mainRun none constAgent).lines :=
  missing_token_aborts_startup none constAgent rfl

/-- Claim C6: the query loop produces one console line per query whatever
the agent does, so an error raised on one query is converted into that
query's failure line and never aborts the remaining batch. -/
theorem query_errors_isolated :
    ∀ (agent : String → Except String String) (qs : List String),
      (runBatch agent qs).length = qs.length ∧
      (∀ i : Nat, (runBatch agent qs)[i]? = (qs[i]?).map (queryLine agent)) ∧
      (∀ q e, agent q = .error e → queryLine agent q = agentErrLineHeader ++ e) := by
  intro agent qs
  refine ⟨by simp [runBatch], fun i => by simp [runBatch, List.getElem?_map], ?_⟩
  intro q e h
  simp [queryLine, h]

/-- Witness for claim C6: an agent that raises on every query still
yields the per-query failure line. -/
theorem query_errors_isolated_witness :
    queryLine failingAgent appQuery1 = agentErrLineHeader ++ boomMsg :=
  (query_errors_isolated failingAgent appQueries).2.2 appQuery1 boomMsg rfl

/-- Claim C7: register fails with DuplicateNameError exactly when a tool
of the same name is present and otherwise appends the tool; lookup fails
with UnknownToolError exactly when the name is absent and otherwise
returns a registered tool of that name. -/
theorem registry_contract :
    ∀ (reg : ToolRegistry) (t : Tool) (nm : String),
      ((∃ u ∈ reg, u.name = t.name) →
        ToolRegistry.register reg t = .error (.duplicateNameError t.name)) ∧
      ((∀ u ∈ reg, u.name ≠ t.name) → ToolRegistry.register reg t = .ok (reg ++ [t])) ∧
      ((∀ u ∈ reg, u.name ≠ nm) →
        ToolRegistry.lookup reg nm = .error (.unknownToolError nm)) ∧
      (∀ u, ToolRegistry.lookup reg nm = .ok u → u ∈ reg ∧ u.name = nm) := by
  intro reg t nm
  refine ⟨?_, ?_, ?_, ?_⟩
  · rintro ⟨u, hu, hn⟩
    have ha : reg.any (fun v => v.name == t.name) = true := by
      simp only [List.any_eq_true]
      exact ⟨u, hu, by simpa using hn⟩
    simp [ToolRegistry.register, ha]
  · intro h
    have ha : reg.any (fun v => v.name == t.name) = false := by
      simp only [List.any_eq_false]
      intro u hu
      simpa using h u hu
    simp [ToolRegistry.register, ha]
  · intro h
    have hf : List.find? (fun v => v.name == nm) reg = none := by
      rw [List.find?_eq_none]
      intro u hu
      simpa using h u hu
    simp [ToolRegistry.lookup, hf]
  · intro u hl
    unfold ToolRegistry.lookup at hl
    cases hfind : List.find? (fun v => v.name == nm) reg with
    | none => rw [hfind] at hl; cases hl
    | some v =>
      rw [hfind] at hl
      have hv : v = u := by
        simpa using hl
      subst hv
      exact ⟨List.mem_of_find?_eq_some hfind, by simpa using List.find?_some hfind⟩

/-- Witness for claim C7: registering a second Calculator into the demo
registry fails with the duplicate-name error. -/
theorem registry_contract_witness :
    ToolRegistry.register demoReg demoTool = .error (.duplicateNameError demoTool.name) :=
  (registry_contract demoReg demoTool demoMissingName).1 ⟨demoTool, by simp [demoReg], rfl⟩

/-- Helper: the zero-padded digit characters emitted by the strftime model
are decimal digits. -/
theorem digitCh_isDigit (n : Nat) : (digitCh n).isDigit = true := by
  unfold digitCh
  have hk : n % 10 < 10 := Nat.mod_lt n (by omega)
  generalize hg : n % 10 = k at hk
  interval_cases k <;> decide

/-- Claim C9: on any valid clock instant the current-time tool's output
matches the pattern YYYY-MM-DD HH:MM:SS, and the output is independent of
the input string, which exists only to satisfy the tool signature. -/
theorem current_time_format_and_input_independent :
    ∀ (now : PyDateTime) (s1 s2 : String), validDateTime now →
      matchesTimestamp (get_current_time now s1) = true ∧
      get_current_time now s1 = get_current_time now s2 := by
  intro now s1 s2 h
  refine ⟨?_, rfl⟩
  unfold get_current_time strftimeYmdHms matchesTimestamp pad4 pad2 dashS colonS spaceS
  simp only [String.data_append]
  simp [digitCh_isDigit]

/-- Witness for claim C9 at a concrete valid instant and two distinct
inputs. -/
theorem current_time_format_witness :
    matchesTimestamp (get_current_time demoNow appQuery1) = true ∧
    get_current_time demoNow appQuery1 = get_current_time demoNow appQuery2 :=
  current_time_format_and_input_independent demoNow appQuery1 appQuery2
    ⟨by decide, by decide, by decide, by decide, by decide, by decide, by decide, by decide,
      by decide⟩

/-- Helper: the Done state of the decision loop is absorbing. -/
theorem loopStep_done_absorb (router : List (Decision × String) → Decision) (reg : ToolRegistry) :
    ∀ (k : Nat) (out : String) (tr : List (Decision × String)),
      (loopStep router reg)^[k] (.doneSt out tr) = .doneSt out tr := by
  intro k
  induction k with
  | zero => intro out tr; rfl
  | succ n ih =>
    intro out tr
    rw [Function.iterate_succ_apply]
    exact ih out tr

/-- Helper: invocation counts add over trace concatenation. -/
theorem countInvocations_append (tr l : List (Decision × String)) :
    countInvocations (tr ++ l) = countInvocations tr + countInvocations l := by
  simp [countInvocations, List.countP_append]

/-- Helper: from the Routing state with n permitted invocations the loop
is Done after at most 2n+3 steps, having invoked at most n more tools,
whatever the router decides. -/
theorem loop_routing_reaches_done (router : List (Decision × String) → Decision)
    (reg : ToolRegistry) :
    ∀ (n : Nat) (tr : List (Decision × String)),
      ∃ out tr2, (loopStep router reg)^[2 * n + 3] (.routingSt n tr) = .doneSt out tr2 ∧
        countInvocations tr2 ≤ countInvocations tr + n := by
  intro n
  induction n with
  | zero =>
    intro tr
    cases hd : router tr with
    | answer t =>
      refine ⟨t, tr ++ [(.answer t, t)], ?_, ?_⟩
      · show loopStep router reg (loopStep router reg (loopStep router reg (.routingSt 0 tr))) = _
        simp [loopStep, hd]
      · have hc : countInvocations (tr ++ [(Decision.answer t, t)]) = countInvocations tr := by
          simp [countInvocations, List.countP_append, decisionIsInvoke]
        omega
    | invokeTool nm arg =>
      refine ⟨boundExceededAnswer, tr, ?_, by omega⟩
      show loopStep router reg (loopStep router reg (loopStep router reg (.routingSt 0 tr))) = _
      simp [loopStep, hd]
  | succ n ih =>
    intro tr
    cases hd : router tr with
    | answer t =>
      refine ⟨t, tr ++ [(.answer t, t)], ?_, ?_⟩
      · have hsplit : 2 * (n + 1) + 3 = (2 * n + 3) + 2 := by omega
        rw [hsplit, Function.iterate_add_apply]
        have h2 : (loopStep router reg)^[2] (.routingSt (n + 1) tr) =
            .doneSt t (tr ++ [(.answer t, t)]) := by
          show loopStep router reg (loopStep router reg (.routingSt (n + 1) tr)) = _
          simp [loopStep, hd]
        rw [h2, loopStep_done_absorb]
      · have hc : countInvocations (tr ++ [(Decision.answer t, t)]) = countInvocations tr := by
          simp [countInvocations, List.countP_append, decisionIsInvoke]
        omega
    | invokeTool nm arg =>
      cases hlook : ToolRegistry.lookup reg nm with
      | error e =>
        refine ⟨unknownToolAnswer nm, tr ++ [(.invokeTool nm arg, unknownToolAnswer nm)], ?_, ?_⟩
        · have hsplit : 2 * (n + 1) + 3 = (2 * n + 2) + 3 := by omega
          rw [hsplit, Function.iterate_add_apply]
          have h3 : (loopStep router reg)^[3] (.routingSt (n + 1) tr) =
              .doneSt (unknownToolAnswer nm) (tr ++ [(.invokeTool nm arg, unknownToolAnswer nm)]) := by
            show loopStep router reg (loopStep router reg (loopStep router reg
              (.routingSt (n + 1) tr))) = _
            simp [loopStep, hd, hlook]
          rw [h3, loopStep_done_absorb]
        · have hc : countInvocations (tr ++ [(Decision.invokeTool nm arg, unknownToolAnswer nm)]) =
              countInvocations tr + 1 := by
            simp [countInvocations, List.countP_append, decisionIsInvoke]
          omega
      | ok tl =>
        have hsplit : 2 * (n + 1) + 3 = (2 * n + 3) + 2 := by omega
        have h2 : (loopStep router reg)^[2] (.routingSt (n + 1) tr) =
            .routingSt n (tr ++ [(.invokeTool nm arg, tl.invoke arg)]) := by
          show loopStep router reg (loopStep router reg (.routingSt (n + 1) tr)) = _
          simp [loopStep, hd, hlook]
        obtain ⟨out, tr2, heq, hle⟩ := ih (tr ++ [(.invokeTool nm arg, tl.invoke arg)])
        refine ⟨out, tr2, ?_, ?_⟩
        · rw [hsplit, Function.iterate_add_apply, h2, heq]
        · have hc : countInvocations (tr ++ [(Decision.invokeTool nm arg, tl.invoke arg)]) =
              countInvocations tr + 1 := by
            simp [countInvocations, List.countP_append, decisionIsInvoke]
          omega

/-- Claim C4: for every router behavior, registry, query and configured
iteration bound, the decision loop reaches the Done state within the fixed
step budget and performs at most the permitted number of tool
invocations, so the maximum-iteration bound enforces termination. -/
theorem decision_loop_terminates :
    ∀ (router2 : String → List (Decision × String) → Decision) (reg : ToolRegistry)
      (query : String) (bound : Nat),
      ∃ out tr, runDecisionLoop router2 reg query bound = .doneSt out tr ∧
        countInvocations tr ≤ bound := by
  intro router2 reg query bound
  obtain ⟨out, tr2, heq, hle⟩ := loop_routing_reaches_done (router2 query) reg bound []
  refine ⟨out, tr2, ?_, ?_⟩
  · unfold runDecisionLoop
    have hsplit : 2 * bound + 4 = (2 * bound + 3) + 1 := by omega
    rw [hsplit, Function.iterate_add_apply]
    have h1 : (loopStep (router2 query) reg)^[1] (.startSt bound) = .routingSt bound [] := rfl
    rw [h1, heq]
  · have h0 : countInvocations ([] : List (Decision × String)) = 0 := rfl
    omega
